import Mathlib

/-!
Shallow embedding of the outfit-recommender pipeline core
(`backend/app/utils/logs.py`, `backend/app/agents/{multi_model,trending,analysis}.py`,
`backend/app/routers/analyze.py`).

Conventions of the embedding:
* Python `bytes` values are `List Nat` (one entry per byte).
* Python strings are Lean `String`; Python slicing `s[:n]` (which counts code
  points) is `List.take n` on `String.data`.
* A value observed from the external Gemini / DSPy call is a parameter of the
  stage function (`Except String α` for calls that either return a value or
  raise an exception whose `str()` is the carried message).
* `datetime.now(timezone.utc)` is modelled by an explicit `Nat` clock argument
  per call site; the ISO-8601 rendering is order-preserving, so timestamp
  comparisons are carried out on the clock values.
* Python truthiness on optional strings/bytes (`x or d`, `if x:`) is modelled
  explicitly: `none` and the empty value are both falsy.
-/

/-- Python truthy `or` on an optional string: `x or d` yields `d` when `x` is
`None` or the empty string. -/
def pyOrStr (x : Option String) (d : String) : String :=
  match x with
  | none => d
  | some s => if s = "" then d else s

/-- Python `dict.get(k, d)` on an association-list model of a string dict. -/
def dictGetD (m : List (String × String)) (k d : String) : String :=
  match m.lookup k with
  | some v => v
  | none => d

/-- Python `s[:n]` on a string (slices count code points, as `String.data` does). -/
def strTake (s : String) (n : Nat) : String :=
  ⟨s.data.take n⟩

/-- A JSON scalar appearing in the `details` dicts the agents log
(`json.dumps` renders strings quoted and booleans as `true`/`false`). -/
inductive JVal where
  | s (v : String)
  | b (v : Bool)
deriving Repr, DecidableEq

/-- Minimal `json.dumps` escaping for the string scalars (backslash and quote). -/
def jsonEscape (s : String) : String :=
  ⟨s.data.foldr (fun c acc => if c = '\\' ∨ c = '"' then '\\' :: c :: acc else c :: acc) []⟩

def jvalRender : JVal → String
  | .s v => "\"" ++ jsonEscape v ++ "\""
  | .b v => if v then "true" else "false"

/-- `json.dumps` of a flat string-keyed object, keys in insertion order. -/
def jsonDumps (l : List (String × JVal)) : String :=
  "\x7b" ++ String.intercalate ", "
    (l.map fun p => "\"" ++ jsonEscape p.1 ++ "\": " ++ jvalRender p.2) ++ "\x7d"

/-- The `details` argument of `append_agent_log`: either a dict/list (carried
here as its `json.dumps` serialization, which is what the cap is applied to)
or any other value (carried as its `str()` rendering). -/
inductive LogDetails where
  | dictOrList (dump : String)
  | other (s : String)
deriving Repr, DecidableEq

/-- One structured log entry (`AgentLogEntry` in `state.py`); `timestamp` is
the clock value read at append time. -/
structure LogEntry where
  agent : String
  message : String
  level : String
  timestamp : Nat
  details : Option String
deriving Repr, DecidableEq

/-- The entry constructed by `append_agent_log` (`logs.py` lines 30-48):
dict/list details go through `json.dumps(details, ensure_ascii=True)[:800]`,
anything else through `str(details)` with no cap. -/
def mkLogEntry (now : Nat) (agent message level : String)
    (details : Option LogDetails) : LogEntry :=
  { agent := agent
    message := message
    level := level
    timestamp := now
    details := details.map fun d =>
      match d with
      | .dictOrList dump => ⟨dump.data.take 800⟩
      | .other s => s }

/-- The shared pipeline state (`AgentState` in `state.py`).
`generated_image_url := none` models the route's empty-string placeholder as
well as the `None` the generator stage writes on failure (both are falsy). -/
structure PipelineState where
  original_image : List Nat := []
  user_query : String := ""
  analysis_mode : String := "deep"
  visual_analysis : List (String × String) := []
  trend_summary : String := ""
  final_report : String := ""
  generated_image_url : Option String := none
  generation_prompt : String := ""
  image_generation_error : Option String := none
  agent_logs : List LogEntry := []
deriving Repr, DecidableEq

/-- `append_agent_log(state, agent, message, level=..., details=...)`
(`logs.py`): appends one entry built by `mkLogEntry` to `state["agent_logs"]`. -/
def append_agent_log (state : PipelineState) (now : Nat)
    (agent message : String) (level : String := "info")
    (details : Option LogDetails := none) : PipelineState :=
  { state with agent_logs := state.agent_logs ++ [mkLogEntry now agent message level details] }

/-- The structured output of the DSPy `AnalyzeOutfitImage` signature
(`dspy_signatures.py`): five string fields. -/
structure VisionFeatures where
  gender_style : String
  cut : String
  color : String
  fabric : String
  occasion : String
deriving Repr, DecidableEq

/-- Vision Stage, `analyze_image` in `multi_model.py` (lines 40-135).
`call` is the outcome of the whole try-block body (image decoding, the Gemini
description call and the DSPy structuring call); an exception anywhere inside
it carries its `str()` in the `.error` case. `now1`/`now2` are the clock values
read by the two `append_agent_log` calls. The function is total: every outcome
produces a state, which is the formal counterpart of "never raises past its
boundary". -/
def analyze_image (now1 now2 : Nat) (call : Except String VisionFeatures)
    (state : PipelineState) : PipelineState :=
  let mode := state.analysis_mode
  let vision_model := if mode = "quick" then "gemini-2.5-flash" else "gemini-2.5-pro"
  let st1 := append_agent_log state now1 "vision" "Starting image analysis" "info"
    (some (.dictOrList (jsonDumps [("mode", .s mode), ("model", .s vision_model)])))
  match call with
  | .ok r =>
    let analysis : List (String × String) :=
      [("gender_style", r.gender_style), ("cut", r.cut), ("color", r.color),
       ("fabric", r.fabric), ("occasion", r.occasion)]
    let st2 := append_agent_log st1 now2 "vision" "Completed image analysis" "info"
      (some (.dictOrList (jsonDumps (analysis.map fun p => (p.1, .s p.2)))))
    { st2 with visual_analysis := analysis }
  | .error e =>
    let analysis : List (String × String) :=
      [("gender_style", "unknown"), ("cut", "unknown"), ("color", "unknown"),
       ("fabric", "unknown"), ("occasion", "unknown"), ("error", e)]
    let st2 := append_agent_log st1 now2 "vision" "Failed to analyze image" "error"
      (some (.other e))
    { st2 with visual_analysis := analysis }

/-- The deterministic offline fallback string of the Trend Stage
(`trending.py` lines 73-77). -/
def trendFallback (gender_style occasion : String) : String :=
  "Current fashion trends for " ++ gender_style ++ " " ++ occasion ++
    " wear focus on quality fabrics, versatile pieces, and sustainable choices. " ++
    "Neutral colors and classic silhouettes remain popular."

/-- Trend Stage, `fetch_trends` in `trending.py` (lines 13-86). `call` is the
outcome of the DSPy `FetchRelevantTrends` call. On failure the fallback string
is built from the `gender_style`/`occasion` values read (with defaults) from
`visual_analysis`, and the failure entry is logged at level `warning`. -/
def fetch_trends (now1 now2 : Nat) (call : Except String String)
    (state : PipelineState) : PipelineState :=
  let visual := state.visual_analysis
  let gender_style := dictGetD visual "gender_style" "unisex"
  let occasion := dictGetD visual "occasion" "casual"
  let st1 := append_agent_log state now1 "trends" "Collecting trend context" "info"
    (some (.dictOrList (jsonDumps
      [("gender_style", .s gender_style), ("occasion", .s occasion),
       ("mode", .s state.analysis_mode)])))
  match call with
  | .ok trends =>
    let st2 := append_agent_log st1 now2 "trends" "Produced trend summary" "info"
      (some (.other (strTake trends 300)))
    { st2 with trend_summary := trends }
  | .error e =>
    let trends := trendFallback gender_style occasion
    let st2 := append_agent_log st1 now2 "trends"
      "Failed to fetch trends; using fallback" "warning" (some (.other e))
    { st2 with trend_summary := trends }

/-- The fixed apology the Advisory Stage returns on failure
(`analysis.py` lines 94-97). -/
def adviceApology : String :=
  "Unable to generate personalized advice at this time. " ++
  "Please try again later or consult with a fashion professional."

/-- Advisory Stage, `synthesize_advice` in `analysis.py` (lines 29-106).
`call` is the outcome of the DSPy `SynthesizeStylingAdvice` call (which the
code feeds from `visual_analysis`, `trend_summary` and `user_query`); its
`.ok` value is the produced advice. On failure the stage returns the fixed
apology and logs at level `error`. -/
def synthesize_advice (now1 now2 : Nat) (call : Except String String)
    (state : PipelineState) : PipelineState :=
  let st1 := append_agent_log state now1 "advisor" "Generating styling advice" "info"
    (some (.dictOrList (jsonDumps [("mode", .s state.analysis_mode)])))
  match call with
  | .ok advice =>
    let st2 := append_agent_log st1 now2 "advisor" "Completed styling advice" "info"
      (some (.other (strTake advice 300)))
    { st2 with final_report := advice }
  | .error e =>
    let st2 := append_agent_log st1 now2 "advisor"
      "Failed to generate styling advice" "error" (some (.other e))
    { st2 with final_report := adviceApology }

/-- Python `advice.split(".")[0]`: the segment before the first dot. -/
def beforeFirstDot (s : String) : String :=
  ⟨s.data.takeWhile (fun c => c ≠ '.')⟩

/-- The generation instruction built by `generate_outfit`
(`multi_model.py` lines 173-186), after the trailing `.strip()`. -/
def mkGenerationPrompt (advice : String) (visual : List (String × String))
    (query : String) : String :=
  "Professional fashion editorial photography:\n" ++
  "- Outfit: " ++ (if advice ≠ "" then beforeFirstDot advice else "Professional outfit") ++ "\n" ++
  "- Style: " ++ dictGetD visual "cut" "modern tailored fit" ++ "\n" ++
  "- Colors: " ++ dictGetD visual "color" "neutral professional tones" ++ "\n" ++
  "- Fabric: " ++ dictGetD visual "fabric" "high-quality materials" ++ "\n" ++
  "- Occasion: " ++ dictGetD visual "occasion" "professional setting" ++ "\n" ++
  "- Personal request: " ++ pyOrStr (some query) "Tailor to the user's stated preference" ++ "\n" ++
  "- IMPORTANT: Keep the exact same person, face, facial expression, pose, and background from the reference image. Only change the clothing/outfit to match the new style guidance.\n" ++
  "- Setting: Same background as reference image, professional lighting\n" ++
  "- Shot: Full body, same pose and composition as reference image, high detail, 8K quality\n" ++
  "- Mood: Sophisticated, professional, current trends\n" ++
  "- Reference: Use the provided outfit photo as base - preserve the person's identity, face, hair, body type, pose, and background completely unchanged. Only modify the wardrobe items."

/-- Outcome, observed by `generate_outfit`, of its try-block around
`_generate_image_from_gemini`: the helper returned a data URL with its mime
type, or returned `(None, None)` (it swallows its own exceptions), or an
exception escaped the try block with the carried `str()`. -/
inductive GenCallResult where
  | produced (url mime : String)
  | empty
  | raised (msg : String)
deriving Repr, DecidableEq

/-- Image Regeneration Stage, `generate_outfit` in `multi_model.py`
(lines 138-244). `state["image_generation_error"]` is reset to `None` up
front; the three terminal outcomes log at levels info / warning / error and
leave `generated_image_url` and `image_generation_error` as the code does. -/
def generate_outfit (now1 now2 : Nat) (call : GenCallResult)
    (state : PipelineState) : PipelineState :=
  let st0 := { state with image_generation_error := none }
  let st1 := append_agent_log st0 now1 "generator" "Preparing outfit visualization" "info"
    (some (.dictOrList (jsonDumps
      [("mode", .s state.analysis_mode), ("has_advice", .b (state.final_report ≠ ""))])))
  let generation_prompt :=
    mkGenerationPrompt state.final_report state.visual_analysis state.user_query
  match call with
  | .produced url mime =>
    let st2 := append_agent_log st1 now2 "generator" "Generated upgraded outfit image" "info"
      (some (.dictOrList (jsonDumps [("mime_type", .s (pyOrStr (some mime) "unknown"))])))
    { st2 with generated_image_url := some url, generation_prompt := generation_prompt }
  | .empty =>
    let st2 := { st1 with
      image_generation_error := some "Gemini image generation returned no content" }
    let st3 := append_agent_log st2 now2 "generator"
      "Gemini image generation returned no content" "warning"
    { st3 with generated_image_url := none, generation_prompt := generation_prompt }
  | .raised msg =>
    let st2 := { st1 with image_generation_error := some msg }
    let st3 := append_agent_log st2 now2 "generator"
      "Failed to generate outfit visualization" "error" (some (.other msg))
    { st3 with generated_image_url := none, generation_prompt := generation_prompt }

/-- Inline payload of a response part: raw bytes or a base64 string
(`inline_data.data` may be either in the Gemini SDK). -/
inductive InlineDatum where
  | bytes (b : List Nat)
  | str (s : String)
deriving Repr, DecidableEq

/-- Python truthiness of `inline_data.data`: empty bytes and the empty string
are falsy. -/
def datumTruthy : InlineDatum → Bool
  | .bytes b => !b.isEmpty
  | .str s => !(s = "")

/-- `part.inline_data`: `data` is `None`-able, `mime_type` is `None`-able. -/
structure InlineData where
  data : Option InlineDatum
  mime_type : Option String
deriving Repr, DecidableEq

/-- `part.file_data`: a remote file reference. -/
structure FileData where
  file_uri : Option String
  mime_type : Option String
deriving Repr, DecidableEq

/-- One part of a Gemini response. -/
structure RespPart where
  inline_data : Option InlineData
  file_data : Option FileData
deriving Repr, DecidableEq

/-- `candidate.content`; a missing `parts` attribute and a `None` value both
end up contributing no parts, collapsed to `Option`. -/
structure Content where
  parts : Option (List RespPart)
deriving Repr, DecidableEq

structure Candidate where
  content : Option Content
deriving Repr, DecidableEq

/-- A Gemini `generate_content` response: parts may be exposed through
`candidates[*].content.parts` and/or directly through `response.parts`. -/
structure GeminiResponse where
  candidates : Option (List Candidate)
  parts : Option (List RespPart)
deriving Repr, DecidableEq

/-- Parts contributed by one candidate (`multi_model.py` lines 316-320):
`content.parts` is appended whenever `content` is truthy and has the
attribute; a `None`/missing parts list contributes nothing in the loop. -/
def candidateParts (cand : Candidate) : List RespPart :=
  match cand.content with
  | none => []
  | some content => content.parts.getD []

/-- The flattened iteration order of `_extract_image_bytes`
(lines 316-325): all candidate part lists first, then `response.parts`,
which is only appended when truthy, i.e. non-empty. -/
def allParts (r : GeminiResponse) : List RespPart :=
  ((r.candidates.getD []).map candidateParts).flatten ++
    (match r.parts with
     | some ps => if ps.isEmpty then [] else ps
     | none => [])

/-- Per-part extraction (`multi_model.py` lines 326-348), parametrized by the
library calls it makes: `decode` is `base64.b64decode` (`none` models the
raised/caught decoding exception) and `download` is `_download_file_bytes`
(total in the source: it catches everything and returns `None`). Order inside
a part: truthy inline raw bytes, then truthy inline base64 string, then a
truthy `file_data.file_uri` whose download yields truthy bytes. -/
def partExtract (decode download : String → Option (List Nat))
    (part : RespPart) : Option (List Nat × Option String) :=
  let fromInline : Option (List Nat × Option String) :=
    match part.inline_data with
    | some idata =>
      match idata.data with
      | some d =>
        if datumTruthy d then
          match d with
          | .bytes b => some (b, idata.mime_type)
          | .str s => (decode s).map fun b => (b, idata.mime_type)
        else none
      | none => none
    | none => none
  match fromInline with
  | some r => some r
  | none =>
    match part.file_data with
    | some fdata =>
      match fdata.file_uri with
      | some uri =>
        if uri = "" then none
        else (download uri).bind fun b => if b.isEmpty then none else some (b, fdata.mime_type)
      | none => none
    | none => none

/-- The nested loop of `_extract_image_bytes` over the flattened parts:
early-returns the first part whose extraction succeeds. -/
def extractLoop (decode download : String → Option (List Nat)) :
    List RespPart → Option (List Nat × Option String)
  | [] => none
  | p :: rest =>
    match partExtract decode download p with
    | some r => some r
    | none => extractLoop decode download rest

/-- `_extract_image_bytes` (`multi_model.py` lines 307-350): a falsy (`None`)
response yields `(None, None)`, otherwise the parts are scanned in order. -/
def extract_image_bytes (decode download : String → Option (List Nat))
    (response : Option GeminiResponse) : Option (List Nat × Option String) :=
  match response with
  | none => none
  | some r => extractLoop decode download (allParts r)

/-- The standard base64 alphabet. -/
def base64Chars : List Char :=
  "ABCDEFGHIJKLMNOPQRSTUVWXYZabcdefghijklmnopqrstuvwxyz0123456789+/".data

def b64c (n : Nat) : Char := base64Chars.getD n '?'

/-- `base64.b64encode(...).decode("utf-8")` on a byte list (values < 256). -/
def base64Encode : List Nat → String
  | [] => ""
  | [a] => ⟨[b64c (a / 4), b64c (a % 4 * 16), '=', '=']⟩
  | [a, b] => ⟨[b64c (a / 4), b64c (a % 4 * 16 + b / 16), b64c (b % 16 * 4), '=']⟩
  | a :: b :: c :: rest =>
    (⟨[b64c (a / 4), b64c (a % 4 * 16 + b / 16), b64c (b % 16 * 4 + c / 64), b64c (c % 64)]⟩ : String)
      ++ base64Encode rest

/-- `_generate_image_from_gemini` (`multi_model.py` lines 247-304) from the
extraction step onwards: `response` is the model call's result (`none` when
the call itself raised, handled by the surrounding catch-all which returns
`(None, None)`). Empty or absent extracted bytes fail the `if not image_bytes`
truthiness check; otherwise the data URL is built with
`mime_type = mime_type or "image/png"`. -/
def generate_image_from_gemini (decode download : String → Option (List Nat))
    (response : Option GeminiResponse) : Option String × Option String :=
  match extract_image_bytes decode download response with
  | none => (none, none)
  | some (image_bytes, mime_type) =>
    if image_bytes.isEmpty then (none, none)
    else
      let mime := pyOrStr mime_type "image/png"
      (some ("data:" ++ mime ++ ";base64," ++ base64Encode image_bytes), some mime)

/-- `ALLOWED_EXTENSIONS` (`analyze.py` line 18), written as the literal's
element order (the Python value is a set, so only membership is meaningful). -/
def ALLOWED_EXTENSIONS : List String := ["png", "jpg", "jpeg", "gif", "webp"]

/-- `MAX_FILE_SIZE = 10 * 1024 * 1024` (`analyze.py` line 17). -/
def MAX_FILE_SIZE : Nat := 10 * 1024 * 1024

/-- `DEFAULT_QUERY` (`analyze.py` line 19). -/
def DEFAULT_QUERY : String := "What should I wear for a wedding?"

/-- `filename.rsplit(".", 1)[1]`: the characters after the last dot.
Only evaluated by the caller when the name contains a dot (`rsplit` would
otherwise yield a one-element list and `[1]` would raise). -/
def afterLastDot : List Char → List Char
  | [] => []
  | c :: rest =>
    if rest.contains '.' then afterLastDot rest
    else if c = '.' then rest
    else afterLastDot rest

/-- `_allowed_file` (`analyze.py` lines 22-31):
`"." in filename and filename.rsplit(".", 1)[1].lower() in ALLOWED_EXTENSIONS`.
`str.lower()` on the extension is character-wise `Char.toLower` here (the
allow-listed extensions are pure ASCII). -/
def allowed_file (filename : String) : Bool :=
  filename.data.contains '.' &&
    ALLOWED_EXTENSIONS.contains ⟨(afterLastDot filename.data).map Char.toLower⟩

/-- An uploaded file as the route sees it: `filename` plus the bytes that
`file.read()` yields. -/
structure UploadedFile where
  filename : String
  content : List Nat
deriving Repr, DecidableEq

/-- The incoming multipart request: `request.files` and `request.form` as
string-keyed association lists. -/
structure AnalyzeRequest where
  files : List (String × UploadedFile)
  form : List (String × String)
deriving Repr, DecidableEq

/-- Result of `_validate_request` (`analyze.py` lines 34-58): the validated
`(file, user_query)` pair, or the `(error_response, status_code)` pair that
the route returns as-is. Error bodies are the JSON objects passed to
`jsonify`. -/
def validate_request (req : AnalyzeRequest) :
    (UploadedFile × String) ⊕ (List (String × String) × Nat) :=
  match req.files.lookup "image" with
  | none => .inr ([("error", "No image file provided")], 400)
  | some file =>
    if file.filename = "" then .inr ([("error", "No file selected")], 400)
    else if !allowed_file file.filename then
      .inr ([("error", "Invalid file type. Allowed: " ++
        String.intercalate ", " ALLOWED_EXTENSIONS)], 400)
    else
      .inl (file, (req.form.lookup "query").getD DEFAULT_QUERY)

/-- What the `/analyze` route does with a request before any model call:
either it answers immediately with an error body and status (never touching
the pipeline), or it constructs the initial Pipeline State and invokes the
orchestrator on it. -/
inductive AnalyzeDecision where
  | reject (body : List (String × String)) (status : Nat)
  | invoke (initial : PipelineState)
deriving Repr, DecidableEq

/-- `analyze_outfit` (`analyze.py` lines 62-130) up to the point where the
compiled agent graph is invoked: validation, the size check on the bytes read,
mode normalization, and construction of `initial_state`. The route's
`generated_image_url: ""` placeholder is the falsy `none` of the embedding. -/
def analyze_outfit (req : AnalyzeRequest) : AnalyzeDecision :=
  match validate_request req with
  | .inr (body, status) => .reject body status
  | .inl (file, user_query) =>
    let image_bytes := file.content
    if image_bytes.length > MAX_FILE_SIZE then
      .reject [("error", "File size exceeds 10MB limit")] 400
    else
      let m := (dictGetD req.form "mode" "deep").toLower
      let analysis_mode := if m = "quick" ∨ m = "deep" then m else "deep"
      .invoke
        { original_image := image_bytes
          user_query := user_query
          visual_analysis := []
          trend_summary := ""
          final_report := ""
          generated_image_url := none
          generation_prompt := ""
          agent_logs := []
          analysis_mode := analysis_mode
          image_generation_error := none }

/-- The five required visual-feature keys. -/
def fiveKeys : List String := ["gender_style", "cut", "color", "fabric", "occasion"]

/-- A library/network oracle that always fails, for concrete evaluations. -/
def noDecode : String → Option (List Nat) := fun _ => none

def cexInlinePart : RespPart :=
  { inline_data := some { data := some (.bytes [137]), mime_type := some "" }
    file_data := none }

def cexResponse : GeminiResponse :=
  { candidates := none, parts := some [cexInlinePart] }

def wInlinePart : RespPart :=
  { inline_data := some { data := some (.bytes [1, 2, 3]), mime_type := some "image/jpeg" }
    file_data := none }

def wResponse : GeminiResponse :=
  { candidates := none, parts := some [wInlinePart] }

def reqNoImage : AnalyzeRequest := { files := [], form := [] }

def reqOversize : AnalyzeRequest :=
  { files := [("image", { filename := "big.png",
                          content := List.replicate (10 * 1024 * 1024 + 1) 0 })]
    form := [] }

def w4NoneRespPart : RespPart := { inline_data := none, file_data := none }

def w4BytesRespPart : RespPart :=
  { inline_data := some { data := some (.bytes [7]), mime_type := none }
    file_data := none }

def w4Response : GeminiResponse :=
  { candidates := some [{ content := some { parts := some [w4NoneRespPart] } }]
    parts := some [w4BytesRespPart] }

/-- The messages of the terminal-outcome (completion) log entries, one per
stage outcome (success / failure, plus the generator's no-content path). -/
def completionMessages : List String :=
  ["Completed image analysis", "Failed to analyze image",
   "Produced trend summary", "Failed to fetch trends; using fallback",
   "Completed styling advice", "Failed to generate styling advice",
   "Generated upgraded outfit image", "Gemini image generation returned no content",
   "Failed to generate outfit visualization"]

def isCompletionEntry (entry : LogEntry) : Bool :=
  completionMessages.contains entry.message

/-- Number of terminal-outcome entries a given agent contributed. -/
def completionCount (agent : String) (logs : List LogEntry) : Nat :=
  (logs.filter fun entry => entry.agent == agent && isCompletionEntry entry).length

/-- The fixed sequential orchestration compiled by `build_graph`
(`supervisor.py` lines 28-44): Vision → Trend → Advisory → Image Regeneration
over one shared state. -/
def run_pipeline (t1 t2 t3 t4 t5 t6 t7 t8 : Nat)
    (vc : Except String VisionFeatures) (tc ac : Except String String)
    (gc : GenCallResult) (init : PipelineState) : PipelineState :=
  generate_outfit t7 t8 gc
    (synthesize_advice t5 t6 ac
      (fetch_trends t3 t4 tc
        (analyze_image t1 t2 vc init)))

/-- The fallback trend string is never empty (its fixed head alone has 27
characters). -/
theorem trendFallback_ne_empty (g o : String) : trendFallback g o ≠ "" := by
  intro h
  have hlen : (trendFallback g o).length = 0 := by rw [h]; rfl
  simp only [trendFallback, String.length_append, Nat.add_eq_zero] at hlen
  exact absurd hlen.1.1.1.1.1 (by decide)

set_option maxRecDepth 8000 in
/-- C6 counterexample: `append_agent_log` called with a plain-string `details`
of 801 characters stores it whole — the stored `details` has length 801, not
at most 800. (`logs.py` line 48 applies `str(details)` with no cap; only the
dict/list branch on line 46 truncates.) -/
theorem append_agent_log_string_uncapped_cex :
    ((append_agent_log {} 0 "vision" "m" "info"
        (some (LogDetails.other ⟨List.replicate 801 'a'⟩))).agent_logs.map
      fun entry => (entry.details.getD "").length) = [801] ∧ ¬ (801 ≤ 800) := by
  constructor
  · show [(String.mk (List.replicate 801 'a')).length] = [801]
    have h1 : (String.mk (List.replicate 801 'a')).length = 801 := by
      show (List.replicate 801 'a').length = 801
      simp
    rw [h1]
  · decide

/-- C6 (amended): `append_agent_log` appends exactly the entry built by
`mkLogEntry`; for dict/list `details` the stored string is
`json.dumps(...)[:800]` and hence at most 800 characters, while for any other
`details` the stored string is `str(details)` unchanged, with no cap. -/
theorem append_agent_log_details_cap (st : PipelineState) (n : Nat)
    (agent msg lvl dump s : String) :
    (append_agent_log st n agent msg lvl (some (.dictOrList dump))).agent_logs
        = st.agent_logs ++ [mkLogEntry n agent msg lvl (some (.dictOrList dump))]
  ∧ ((mkLogEntry n agent msg lvl (some (.dictOrList dump))).details.getD "").length ≤ 800
  ∧ (mkLogEntry n agent msg lvl (some (.other s))).details = some s := by
  refine ⟨rfl, ?_, rfl⟩
  show (dump.data.take 800).length ≤ 800
  simp [List.length_take]

/-- C7: when the Advisory Stage's external call raises, `final_report` is the
fixed apology string — independent of the state (query, visual analysis,
trend summary) and of the exception — and the failure log entry has level
`error`. -/
theorem synthesize_advice_fixed_apology (n1 n2 : Nat) (e : String) (st : PipelineState) :
    (synthesize_advice n1 n2 (Except.error e) st).final_report = adviceApology
  ∧ (∀ (n1' n2' : Nat) (e' : String) (st' : PipelineState),
      (synthesize_advice n1' n2' (Except.error e') st').final_report
        = (synthesize_advice n1 n2 (Except.error e) st).final_report)
  ∧ (synthesize_advice n1 n2 (Except.error e) st).agent_logs
      = st.agent_logs ++
        [mkLogEntry n1 "advisor" "Generating styling advice" "info"
          (some (.dictOrList (jsonDumps [("mode", .s st.analysis_mode)]))),
         mkLogEntry n2 "advisor" "Failed to generate styling advice" "error"
          (some (.other e))]
  ∧ (mkLogEntry n2 "advisor" "Failed to generate styling advice" "error"
      (some (.other e))).level = "error" := by
  refine ⟨rfl, fun _ _ _ _ => rfl, ?_, rfl⟩
  simp [synthesize_advice, append_agent_log, List.append_assoc]

/-- C2: `analyze_image` is total (no exception crosses its boundary in the
embedding) and its `visual_analysis` always binds all five feature keys; when
the underlying call fails, each of the five is `"unknown"` and the `error` key
holds the failure description. -/
theorem analyze_image_total_contract (n1 n2 : Nat)
    (call : Except String VisionFeatures) (st : PipelineState) :
    (∀ k ∈ fiveKeys, ((analyze_image n1 n2 call st).visual_analysis.lookup k).isSome)
  ∧ (∀ e : String, call = Except.error e →
      (∀ k ∈ fiveKeys,
        (analyze_image n1 n2 call st).visual_analysis.lookup k = some "unknown")
      ∧ (analyze_image n1 n2 call st).visual_analysis.lookup "error" = some e) := by
  cases call with
  | ok r =>
    refine ⟨?_, ?_⟩
    · intro k hk
      simp only [fiveKeys, List.mem_cons, List.not_mem_nil, or_false] at hk
      rcases hk with rfl | rfl | rfl | rfl | rfl <;> rfl
    · intro e he
      exact absurd he (by simp)
  | error e0 =>
    refine ⟨?_, ?_⟩
    · intro k hk
      simp only [fiveKeys, List.mem_cons, List.not_mem_nil, or_false] at hk
      rcases hk with rfl | rfl | rfl | rfl | rfl <;> rfl
    · intro e he
      have : e0 = e := by simpa using he
      subst this
      refine ⟨?_, rfl⟩
      intro k hk
      simp only [fiveKeys, List.mem_cons, List.not_mem_nil, or_false] at hk
      rcases hk with rfl | rfl | rfl | rfl | rfl <;> rfl

theorem analyze_image_total_contract_witness :
    (analyze_image 0 1 (Except.error "boom") {}).visual_analysis.lookup "gender_style"
        = some "unknown"
  ∧ (analyze_image 0 1 (Except.error "boom") {}).visual_analysis.lookup "error"
        = some "boom" :=
  ⟨((analyze_image_total_contract 0 1 (Except.error "boom") {}).2 "boom" rfl).1
      "gender_style" (by decide),
   ((analyze_image_total_contract 0 1 (Except.error "boom") {}).2 "boom" rfl).2⟩

/-- C3: when the Trend Stage's external call raises, `trend_summary` is the
deterministic fallback template — non-empty, containing the `gender_style`
and `occasion` values read from `visual_analysis` (with defaults `"unisex"`
and `"casual"` when those keys are absent) as literal substrings — and the
fallback log entry has level `warning`, not `error`. -/
theorem fetch_trends_fallback_contract (n1 n2 : Nat) (e : String) (st : PipelineState) :
    (fetch_trends n1 n2 (Except.error e) st).trend_summary
        = trendFallback (dictGetD st.visual_analysis "gender_style" "unisex")
            (dictGetD st.visual_analysis "occasion" "casual")
  ∧ (fetch_trends n1 n2 (Except.error e) st).trend_summary ≠ ""
  ∧ (∃ p s, (fetch_trends n1 n2 (Except.error e) st).trend_summary
        = p ++ dictGetD st.visual_analysis "gender_style" "unisex" ++ s)
  ∧ (∃ p s, (fetch_trends n1 n2 (Except.error e) st).trend_summary
        = p ++ dictGetD st.visual_analysis "occasion" "casual" ++ s)
  ∧ (st.visual_analysis.lookup "gender_style" = none →
        dictGetD st.visual_analysis "gender_style" "unisex" = "unisex")
  ∧ (st.visual_analysis.lookup "occasion" = none →
        dictGetD st.visual_analysis "occasion" "casual" = "casual")
  ∧ (fetch_trends n1 n2 (Except.error e) st).agent_logs
      = st.agent_logs ++
        [mkLogEntry n1 "trends" "Collecting trend context" "info"
           (some (.dictOrList (jsonDumps
             [("gender_style", .s (dictGetD st.visual_analysis "gender_style" "unisex")),
              ("occasion", .s (dictGetD st.visual_analysis "occasion" "casual")),
              ("mode", .s st.analysis_mode)]))),
         mkLogEntry n2 "trends" "Failed to fetch trends; using fallback" "warning"
           (some (.other e))]
  ∧ (mkLogEntry n2 "trends" "Failed to fetch trends; using fallback" "warning"
      (some (.other e))).level = "warning"
  ∧ ("warning" : String) ≠ "error" := by
  refine ⟨rfl, trendFallback_ne_empty _ _, ?_, ?_, ?_, ?_, ?_, rfl, by decide⟩
  · exact ⟨"Current fashion trends for ",
      " " ++ dictGetD st.visual_analysis "occasion" "casual" ++
        " wear focus on quality fabrics, versatile pieces, and sustainable choices. " ++
        "Neutral colors and classic silhouettes remain popular.",
      by simp [fetch_trends, trendFallback, String.append_assoc]⟩
  · exact ⟨"Current fashion trends for " ++
        dictGetD st.visual_analysis "gender_style" "unisex" ++ " ",
      " wear focus on quality fabrics, versatile pieces, and sustainable choices. " ++
        "Neutral colors and classic silhouettes remain popular.",
      by simp [fetch_trends, trendFallback, String.append_assoc]⟩
  · intro h; simp [dictGetD, h]
  · intro h; simp [dictGetD, h]
  · simp [fetch_trends, append_agent_log, List.append_assoc]

theorem fetch_trends_fallback_contract_witness :
    (fetch_trends 0 1 (Except.error "down") {}).trend_summary
        = trendFallback "unisex" "casual"
  ∧ dictGetD ({} : PipelineState).visual_analysis "gender_style" "unisex" = "unisex" :=
  ⟨(fetch_trends_fallback_contract 0 1 "down" {}).1,
   (fetch_trends_fallback_contract 0 1 "down" {}).2.2.2.2.1 rfl⟩

/-- C1 counterexample: a run of the Image Regeneration Stage in which the try
block raises an exception whose `str()` is empty (e.g. `ValueError()` with no
arguments) stores that empty string: `image_generation_error` is set to `""`,
which is not a non-empty string, refuting the "non-empty error on exception"
part of the claim (the mutual-exclusion part survives, see the amended
theorem). -/
theorem generate_outfit_empty_exception_cex :
    (generate_outfit 0 1 (GenCallResult.raised "") {}).generated_image_url = none
  ∧ (generate_outfit 0 1 (GenCallResult.raised "") {}).image_generation_error = some ""
  ∧ ("" : String).length = 0 :=
  ⟨rfl, rfl, rfl⟩

/-- C1 (amended): `generated_image_url` and `image_generation_error` are never
both populated: on success the error is `None`; on empty extraction the URL is
`None` and the error is the fixed non-empty no-content message; on an
exception the URL is `None` and the error is the exception's `str()`, which is
non-empty exactly when that rendering is non-empty. -/
theorem generate_outfit_url_error_exclusive (n1 n2 : Nat) (st : PipelineState) :
    (∀ url mime : String,
       (generate_outfit n1 n2 (GenCallResult.produced url mime) st).generated_image_url
           = some url
     ∧ (generate_outfit n1 n2 (GenCallResult.produced url mime) st).image_generation_error
           = none)
  ∧ ((generate_outfit n1 n2 GenCallResult.empty st).generated_image_url = none
     ∧ (generate_outfit n1 n2 GenCallResult.empty st).image_generation_error
         = some "Gemini image generation returned no content"
     ∧ ("Gemini image generation returned no content" : String) ≠ "")
  ∧ (∀ msg : String,
       (generate_outfit n1 n2 (GenCallResult.raised msg) st).generated_image_url = none
     ∧ (generate_outfit n1 n2 (GenCallResult.raised msg) st).image_generation_error
         = some msg)
  ∧ (∀ call : GenCallResult,
       (generate_outfit n1 n2 call st).generated_image_url ≠ none →
         (generate_outfit n1 n2 call st).image_generation_error = none)
  ∧ (∀ call : GenCallResult,
       (generate_outfit n1 n2 call st).image_generation_error ≠ none →
         (generate_outfit n1 n2 call st).generated_image_url = none) := by
  refine ⟨fun url mime => ⟨rfl, rfl⟩, ⟨rfl, rfl, by decide⟩, fun msg => ⟨rfl, rfl⟩, ?_, ?_⟩
  · intro call h
    cases call with
    | produced url mime => rfl
    | empty => exact absurd rfl h
    | raised msg => exact absurd rfl h
  · intro call h
    cases call with
    | produced url mime => exact absurd rfl h
    | empty => rfl
    | raised msg => rfl

theorem generate_outfit_url_error_exclusive_witness :
    (generate_outfit 0 1 GenCallResult.empty {}).generated_image_url = none :=
  (generate_outfit_url_error_exclusive 0 1 {}).2.2.2.2 GenCallResult.empty
    (fun h => Option.noConfusion h)

/-- C9 counterexample: a response part carrying inline bytes together with an
*empty* MIME string (the reported value of an unset protobuf string field).
Extraction succeeds and reports `mime = ""`, but the produced URL is tagged
`image/png`, because line 299 of `multi_model.py` applies Python's truthiness
(`mime_type or "image/png"`), not an `is None` test: the URL differs from the
one the claim prescribes for a reported MIME type. -/
theorem generate_image_empty_mime_cex :
    extract_image_bytes noDecode noDecode (some cexResponse) = some ([137], some "")
  ∧ (generate_image_from_gemini noDecode noDecode (some cexResponse)).1
      = some ("data:image/png;base64," ++ base64Encode [137])
  ∧ ("data:image/png;base64," ++ base64Encode [137]
      ≠ "data:" ++ "" ++ ";base64," ++ base64Encode [137]) := by
  refine ⟨rfl, rfl, by decide⟩

/-- C9 (amended): whenever extraction yields usable (non-empty) bytes, the
returned URL is exactly `"data:" ++ mime ++ ";base64," ++` the base64 encoding
of those bytes, where `mime` is the MIME type reported by the response part
when that is a non-empty string, and `"image/png"` when the response reports
none *or the empty string* (Python `mime_type or "image/png"`). -/
theorem generate_image_data_url_shape (decode download : String → Option (List Nat))
    (response : Option GeminiResponse) (b : List Nat) (m : Option String)
    (hx : extract_image_bytes decode download response = some (b, m)) (hb : b ≠ []) :
    generate_image_from_gemini decode download response
      = (some ("data:" ++ pyOrStr m "image/png" ++ ";base64," ++ base64Encode b),
         some (pyOrStr m "image/png")) := by
  simp [generate_image_from_gemini, hx, hb]

theorem generate_image_data_url_shape_witness :
    generate_image_from_gemini noDecode noDecode (some wResponse)
      = (some ("data:" ++ pyOrStr (some "image/jpeg") "image/png" ++ ";base64," ++
            base64Encode [1, 2, 3]),
         some (pyOrStr (some "image/jpeg") "image/png")) :=
  generate_image_data_url_shape noDecode noDecode (some wResponse) [1, 2, 3]
    (some "image/jpeg") (by decide) (by decide)

/-- Splitting correctness of `afterLastDot`, forward direction: on a list
containing a dot, it returns the (dot-free) suffix after the last dot. -/
theorem afterLastDot_decomp (cs : List Char) (h : '.' ∈ cs) :
    ∃ before : List Char,
      cs = before ++ '.' :: afterLastDot cs ∧ '.' ∉ afterLastDot cs := by
  induction cs with
  | nil => cases h
  | cons c rest ih =>
    by_cases hr : '.' ∈ rest
    · obtain ⟨before, hb, hna⟩ := ih hr
      have hco : rest.contains '.' = true := by simpa using hr
      refine ⟨c :: before, ?_, ?_⟩
      · simp only [afterLastDot, hco, if_true]
        rw [List.cons_append]
        exact congrArg (c :: ·) hb
      · simpa only [afterLastDot, hco, if_true] using hna
    · have hco : rest.contains '.' = false := by simpa using hr
      have hc : c = '.' := by
        rcases List.mem_cons.mp h with h1 | h1
        · exact h1.symm
        · exact absurd h1 hr
      subst hc
      refine ⟨[], ?_, ?_⟩
      · simp [afterLastDot, hco, hr]
      · simp [afterLastDot, hco, hr]

/-- Splitting correctness of `afterLastDot`, backward direction: appending a
dot-free suffix after a dot is inverted exactly. -/
theorem afterLastDot_append (before after : List Char) (h : '.' ∉ after) :
    afterLastDot (before ++ '.' :: after) = after := by
  induction before with
  | nil =>
    simp [afterLastDot, h]
  | cons b before ih =>
    have hmem : '.' ∈ before ++ '.' :: after :=
      List.mem_append.mpr (Or.inr (List.mem_cons_self _ _))
    rw [List.cons_append]
    simp only [afterLastDot]
    simp [hmem, ih]

/-- C10: `_allowed_file` accepts a filename exactly when it contains a dot and
the (dot-free) substring after the last dot, lowercased, is one of the five
allowed extensions; uppercase extensions such as `"photo.PNG"` are therefore
accepted, and any dotless filename is rejected. -/
theorem allowed_file_iff_last_dot (f : String) :
    (allowed_file f = true ↔
      ∃ before after : List Char,
        f.data = before ++ '.' :: after ∧ '.' ∉ after
        ∧ ALLOWED_EXTENSIONS.contains ⟨after.map Char.toLower⟩ = true)
  ∧ allowed_file "photo.PNG" = true
  ∧ (f.data.contains '.' = false → allowed_file f = false) := by
  refine ⟨⟨?_, ?_⟩, by decide, ?_⟩
  · intro hall
    simp only [allowed_file, Bool.and_eq_true] at hall
    have hmem : '.' ∈ f.data := by simpa using hall.1
    obtain ⟨before, hb, hna⟩ := afterLastDot_decomp f.data hmem
    refine ⟨before, afterLastDot f.data, hb, hna, hall.2⟩
  · rintro ⟨before, after, hb, hna, hext⟩
    have hmem : '.' ∈ f.data := by
      rw [hb]; exact List.mem_append.mpr (Or.inr (List.mem_cons_self _ _))
    have h1 : f.data.contains '.' = true := by simpa using hmem
    have h2 : afterLastDot f.data = after := by rw [hb]; exact afterLastDot_append _ _ hna
    simp only [allowed_file, h1, h2, hext, Bool.and_self]
  · intro h
    have hm : '.' ∉ f.data := by simpa using h
    simp [allowed_file, hm]

theorem allowed_file_iff_last_dot_witness :
    allowed_file "photo.PNG" = true ∧ allowed_file "photopng" = false :=
  ⟨(allowed_file_iff_last_dot "photo.PNG").2.1,
   (allowed_file_iff_last_dot "photopng").2.2 (by decide)⟩

/-- C8: every invalid-request case is answered with status 400 before the
pipeline runs — the route's decision is `reject`, so no initial Pipeline State
is constructed and the orchestrator is never invoked: missing `image` field
(with the exact body `{"error": "No image file provided"}`), empty filename,
disallowed extension, and a payload larger than 10 MB (whose body message
contains "exceeds 10MB limit"). -/
theorem analyze_route_validation_rejects (req : AnalyzeRequest) :
    (req.files.lookup "image" = none →
       analyze_outfit req = .reject [("error", "No image file provided")] 400)
  ∧ (∀ file : UploadedFile, req.files.lookup "image" = some file →
       file.filename = "" →
       analyze_outfit req = .reject [("error", "No file selected")] 400)
  ∧ (∀ file : UploadedFile, req.files.lookup "image" = some file →
       file.filename ≠ "" → allowed_file file.filename = false →
       analyze_outfit req = .reject
         [("error", "Invalid file type. Allowed: " ++
            String.intercalate ", " ALLOWED_EXTENSIONS)] 400)
  ∧ (∀ file : UploadedFile, req.files.lookup "image" = some file →
       file.filename ≠ "" → allowed_file file.filename = true →
       MAX_FILE_SIZE < file.content.length →
       analyze_outfit req = .reject [("error", "File size exceeds 10MB limit")] 400)
  ∧ ("File size exceeds 10MB limit" : String)
      = "File size " ++ "exceeds 10MB limit" ++ "" := by
  refine ⟨?_, ?_, ?_, ?_, by decide⟩
  · intro h
    simp [analyze_outfit, validate_request, h]
  · intro file hf he
    simp [analyze_outfit, validate_request, hf, he]
  · intro file hf he hext
    simp [analyze_outfit, validate_request, hf, he, hext]
  · intro file hf he hext hsz
    simp [analyze_outfit, validate_request, hf, he, hext, hsz]

theorem analyze_route_validation_rejects_witness :
    analyze_outfit reqNoImage = .reject [("error", "No image file provided")] 400
  ∧ analyze_outfit reqOversize
      = .reject [("error", "File size exceeds 10MB limit")] 400 :=
  ⟨(analyze_route_validation_rejects reqNoImage).1 rfl,
   (analyze_route_validation_rejects reqOversize).2.2.2.1
     { filename := "big.png", content := List.replicate (10 * 1024 * 1024 + 1) 0 }
     rfl (by decide) (by decide)
     (by rw [List.length_replicate]; decide)⟩

/-- The extraction loop returns `none` when every part fails. -/
theorem extractLoop_eq_none (decode download : String → Option (List Nat))
    (l : List RespPart) (h : ∀ p ∈ l, partExtract decode download p = none) :
    extractLoop decode download l = none := by
  induction l with
  | nil => rfl
  | cons p rest ih =>
    have hp := h p (List.mem_cons_self _ _)
    simp only [extractLoop, hp]
    exact ih fun q hq => h q (List.mem_cons_of_mem _ hq)

/-- The extraction loop returns the first successful part's result. -/
theorem extractLoop_first (decode download : String → Option (List Nat))
    (pre post : List RespPart) (p : RespPart) (v : List Nat × Option String)
    (hpre : ∀ q ∈ pre, partExtract decode download q = none)
    (hp : partExtract decode download p = some v) :
    extractLoop decode download (pre ++ p :: post) = some v := by
  induction pre with
  | nil =>
    simp only [List.nil_append, extractLoop, hp]
  | cons q pre ih =>
    have hq := hpre q (List.mem_cons_self _ _)
    rw [List.cons_append]
    simp only [extractLoop, hq]
    exact ih fun q' hq' => hpre q' (List.mem_cons_of_mem _ hq')

/-- C4: `_extract_image_bytes` scans all response parts (candidates first,
then the direct parts) and returns the first successful extraction; within a
part it tries truthy inline raw bytes first, then a truthy inline base64
string (falling through to the file branch when decoding fails), then a
truthy remote file reference whose download yields bytes; when no part yields
anything — or the response is falsy — it returns `(None, None)`, which the
caller `_generate_image_from_gemini` converts into the no-content failure
`(None, None)` rather than a crash. -/
theorem extract_image_bytes_contract (decode download : String → Option (List Nat)) :
    extract_image_bytes decode download none = none
  ∧ (∀ r : GeminiResponse, (∀ p ∈ allParts r, partExtract decode download p = none) →
       extract_image_bytes decode download (some r) = none)
  ∧ (∀ (r : GeminiResponse) (pre post : List RespPart) (p : RespPart)
       (v : List Nat × Option String),
       allParts r = pre ++ p :: post →
       (∀ q ∈ pre, partExtract decode download q = none) →
       partExtract decode download p = some v →
       extract_image_bytes decode download (some r) = some v)
  ∧ (∀ (p : RespPart) (idata : InlineData) (b : List Nat),
       p.inline_data = some idata → idata.data = some (.bytes b) → b ≠ [] →
       partExtract decode download p = some (b, idata.mime_type))
  ∧ (∀ (p : RespPart) (idata : InlineData) (s : String) (b : List Nat),
       p.inline_data = some idata → idata.data = some (.str s) → s ≠ "" →
       decode s = some b →
       partExtract decode download p = some (b, idata.mime_type))
  ∧ (∀ (p : RespPart) (fdata : FileData) (uri : String) (b : List Nat),
       p.inline_data = none → p.file_data = some fdata →
       fdata.file_uri = some uri → uri ≠ "" →
       download uri = some b → b ≠ [] →
       partExtract decode download p = some (b, fdata.mime_type))
  ∧ (∀ (p : RespPart) (idata : InlineData) (s : String) (fdata : FileData)
       (uri : String) (b : List Nat),
       p.inline_data = some idata → idata.data = some (.str s) → s ≠ "" →
       decode s = none →
       p.file_data = some fdata → fdata.file_uri = some uri → uri ≠ "" →
       download uri = some b → b ≠ [] →
       partExtract decode download p = some (b, fdata.mime_type))
  ∧ (∀ response : Option GeminiResponse,
       extract_image_bytes decode download response = none →
       generate_image_from_gemini decode download response = (none, none)) := by
  refine ⟨rfl, ?_, ?_, ?_, ?_, ?_, ?_, ?_⟩
  · intro r h
    exact extractLoop_eq_none decode download (allParts r) h
  · intro r pre post p v hsplit hpre hp
    show extractLoop decode download (allParts r) = some v
    rw [hsplit]
    exact extractLoop_first decode download pre post p v hpre hp
  · intro p idata b hi hd hb
    simp [partExtract, hi, hd, datumTruthy, hb]
  · intro p idata s b hi hd hs hdec
    simp [partExtract, hi, hd, datumTruthy, hs, hdec]
  · intro p fdata uri b hi hf hu hne hdl hb
    simp [partExtract, hi, hf, hu, hne, hdl, hb]
  · intro p idata s fdata uri b hi hd hs hdec hf hu hne hdl hb
    simp [partExtract, hi, hd, datumTruthy, hs, hdec, hf, hu, hne, hdl, hb]
  · intro response h
    simp [generate_image_from_gemini, h]

theorem extract_image_bytes_contract_witness :
    extract_image_bytes noDecode noDecode (some w4Response) = some ([7], none) :=
  (extract_image_bytes_contract noDecode noDecode).2.2.1 w4Response
    [w4NoneRespPart] [] w4BytesRespPart ([7], none) rfl
    (by decide) (by decide)

theorem exists_append_two {α : Type} (xs : List α) (a b : α) :
    ∃ l : List α, (xs ++ [a]) ++ [b] = xs ++ l ∧ l.length = 2 :=
  ⟨[a, b], by simp, rfl⟩

/-- The Vision Stage only appends (two entries) to `agent_logs`. -/
theorem analyze_image_log_shape (n1 n2 : Nat) (c : Except String VisionFeatures)
    (st : PipelineState) :
    ∃ l, (analyze_image n1 n2 c st).agent_logs = st.agent_logs ++ l ∧ l.length = 2 := by
  cases c <;> exact exists_append_two _ _ _

/-- The Trend Stage only appends (two entries) to `agent_logs`. -/
theorem fetch_trends_log_shape (n1 n2 : Nat) (c : Except String String)
    (st : PipelineState) :
    ∃ l, (fetch_trends n1 n2 c st).agent_logs = st.agent_logs ++ l ∧ l.length = 2 := by
  cases c <;> exact exists_append_two _ _ _

/-- The Advisory Stage only appends (two entries) to `agent_logs`. -/
theorem synthesize_advice_log_shape (n1 n2 : Nat) (c : Except String String)
    (st : PipelineState) :
    ∃ l, (synthesize_advice n1 n2 c st).agent_logs = st.agent_logs ++ l ∧ l.length = 2 := by
  cases c <;> exact exists_append_two _ _ _

/-- The Image Regeneration Stage only appends (two entries) to `agent_logs`. -/
theorem generate_outfit_log_shape (n1 n2 : Nat) (c : GenCallResult)
    (st : PipelineState) :
    ∃ l, (generate_outfit n1 n2 c st).agent_logs = st.agent_logs ++ l ∧ l.length = 2 := by
  cases c <;> exact exists_append_two _ _ _

set_option maxHeartbeats 4000000 in
/-- C5: `agent_logs` is append-only across the four stages (each stage's
output extends its input's logs, so the length is monotonically
non-decreasing), and for a run started from the route's fresh initial state
(empty `agent_logs`), a completed run has exactly 8 entries (hence at least
4), the entry timestamps are non-decreasing in append order (given the
monotone clock readings of the synchronous run), and each of the four stages
contributes exactly one terminal-outcome (completion) entry. -/
theorem pipeline_agent_logs_contract
    (t1 t2 t3 t4 t5 t6 t7 t8 : Nat)
    (h12 : t1 ≤ t2) (h23 : t2 ≤ t3) (h34 : t3 ≤ t4) (h45 : t4 ≤ t5)
    (h56 : t5 ≤ t6) (h67 : t6 ≤ t7) (h78 : t7 ≤ t8)
    (vc : Except String VisionFeatures) (tc ac : Except String String)
    (gc : GenCallResult) (init : PipelineState)
    (img : List Nat) (q mode : String) :
    (∃ l, (analyze_image t1 t2 vc init).agent_logs = init.agent_logs ++ l ∧ l.length = 2)
  ∧ (∃ l, (fetch_trends t3 t4 tc (analyze_image t1 t2 vc init)).agent_logs
        = (analyze_image t1 t2 vc init).agent_logs ++ l ∧ l.length = 2)
  ∧ (∃ l, (synthesize_advice t5 t6 ac
          (fetch_trends t3 t4 tc (analyze_image t1 t2 vc init))).agent_logs
        = (fetch_trends t3 t4 tc (analyze_image t1 t2 vc init)).agent_logs ++ l
        ∧ l.length = 2)
  ∧ (∃ l, (run_pipeline t1 t2 t3 t4 t5 t6 t7 t8 vc tc ac gc init).agent_logs
        = (synthesize_advice t5 t6 ac
            (fetch_trends t3 t4 tc (analyze_image t1 t2 vc init))).agent_logs ++ l
        ∧ l.length = 2)
  ∧ init.agent_logs.length ≤ (analyze_image t1 t2 vc init).agent_logs.length
  ∧ (analyze_image t1 t2 vc init).agent_logs.length
      ≤ (fetch_trends t3 t4 tc (analyze_image t1 t2 vc init)).agent_logs.length
  ∧ (fetch_trends t3 t4 tc (analyze_image t1 t2 vc init)).agent_logs.length
      ≤ (synthesize_advice t5 t6 ac
          (fetch_trends t3 t4 tc (analyze_image t1 t2 vc init))).agent_logs.length
  ∧ (synthesize_advice t5 t6 ac
        (fetch_trends t3 t4 tc (analyze_image t1 t2 vc init))).agent_logs.length
      ≤ (run_pipeline t1 t2 t3 t4 t5 t6 t7 t8 vc tc ac gc init).agent_logs.length
  ∧ ((run_pipeline t1 t2 t3 t4 t5 t6 t7 t8 vc tc ac gc
        { original_image := img, user_query := q,
          analysis_mode := mode }).agent_logs.length = 8
    ∧ 4 ≤ (run_pipeline t1 t2 t3 t4 t5 t6 t7 t8 vc tc ac gc
        { original_image := img, user_query := q,
          analysis_mode := mode }).agent_logs.length
    ∧ List.Chain' (fun a b => a ≤ b)
        ((run_pipeline t1 t2 t3 t4 t5 t6 t7 t8 vc tc ac gc
          { original_image := img, user_query := q,
            analysis_mode := mode }).agent_logs.map fun entry => entry.timestamp)
    ∧ completionCount "vision"
        (run_pipeline t1 t2 t3 t4 t5 t6 t7 t8 vc tc ac gc
          { original_image := img, user_query := q,
            analysis_mode := mode }).agent_logs = 1
    ∧ completionCount "trends"
        (run_pipeline t1 t2 t3 t4 t5 t6 t7 t8 vc tc ac gc
          { original_image := img, user_query := q,
            analysis_mode := mode }).agent_logs = 1
    ∧ completionCount "advisor"
        (run_pipeline t1 t2 t3 t4 t5 t6 t7 t8 vc tc ac gc
          { original_image := img, user_query := q,
            analysis_mode := mode }).agent_logs = 1
    ∧ completionCount "generator"
        (run_pipeline t1 t2 t3 t4 t5 t6 t7 t8 vc tc ac gc
          { original_image := img, user_query := q,
            analysis_mode := mode }).agent_logs = 1) := by
  obtain ⟨l1, hl1, hn1⟩ := analyze_image_log_shape t1 t2 vc init
  obtain ⟨l2, hl2, hn2⟩ := fetch_trends_log_shape t3 t4 tc (analyze_image t1 t2 vc init)
  obtain ⟨l3, hl3, hn3⟩ := synthesize_advice_log_shape t5 t6 ac
    (fetch_trends t3 t4 tc (analyze_image t1 t2 vc init))
  obtain ⟨l4, hl4, hn4⟩ := generate_outfit_log_shape t7 t8 gc
    (synthesize_advice t5 t6 ac (fetch_trends t3 t4 tc (analyze_image t1 t2 vc init)))
  have hl4' : (run_pipeline t1 t2 t3 t4 t5 t6 t7 t8 vc tc ac gc init).agent_logs
      = (synthesize_advice t5 t6 ac
          (fetch_trends t3 t4 tc (analyze_image t1 t2 vc init))).agent_logs ++ l4 := hl4
  refine ⟨⟨l1, hl1, hn1⟩, ⟨l2, hl2, hn2⟩, ⟨l3, hl3, hn3⟩, ⟨l4, hl4, hn4⟩,
    ?_, ?_, ?_, ?_, ?_⟩
  · rw [hl1]; simp
  · rw [hl2]; simp
  · rw [hl3]; simp
  · rw [hl4']; simp
  · clear hl1 hn1 hl2 hn2 hl3 hn3 hl4 hn4 hl4' l1 l2 l3 l4
    cases vc <;> cases tc <;> cases ac <;> cases gc <;>
      (refine ⟨rfl, ((by omega : (4:Nat) ≤ 8) : _), ?_, rfl, rfl, rfl, rfl⟩
       show List.Chain' (fun a b => a ≤ b) [t1, t2, t3, t4, t5, t6, t7, t8]
       simp only [List.chain'_cons, List.chain'_singleton, and_true]
       omega)

theorem pipeline_agent_logs_contract_witness :
    (run_pipeline 0 1 2 3 4 5 6 7 (Except.error "v") (Except.error "t")
        (Except.error "a") (GenCallResult.raised "g")
        { original_image := [0], user_query := "q",
          analysis_mode := "deep" }).agent_logs.length = 8 :=
  (pipeline_agent_logs_contract 0 1 2 3 4 5 6 7
      (by decide) (by decide) (by decide) (by decide) (by decide) (by decide) (by decide)
      (Except.error "v") (Except.error "t") (Except.error "a") (GenCallResult.raised "g")
      {} [0] "q" "deep").2.2.2.2.2.2.2.2.1

